import Mathlib

/-!
# silver-settings: the command pipeline of `src/kstyle/config/main.cpp`

A shallow embedding of `main` and `processComandLine`.  The functions of
`PresetsModel`, `DBusMessages`, `InternalSettings` and `SystemIconGenerator` are
external collaborators: they are passed in as functions over an abstract world
`W` (the two configuration stores and everything else outside the process) and
an abstract settings snapshot `S`.  Every call that `processComandLine` makes
is recorded, in program order, in an effect trace, together with the values the
call returned.
-/

namespace Breeze

/-- Status codes of `CommandLineProcessResult` (main.cpp, lines 28-32). -/
inductive Status
  | CommandsProcessedOk
  | Error
  | NoCommand
  deriving DecidableEq, Repr

/-- The struct `CommandLineProcessResult` (main.cpp, lines 27-34); the default
status is `NoCommand`. -/
structure CommandLineProcessResult where
  statusCode : Status := Status.NoCommand
  deriving DecidableEq, Repr

/-- Modelled from the spec: the enumeration `PresetsErrorFlag` is declared in
`presetsmodel.h`, which is missing; the verdicts are `Ok` and the four failure
kinds of section 4.2, the four that main.cpp names at lines 106-122. -/
inductive PresetsErrorFlag
  | Ok
  | InvalidGlobalGroup
  | InvalidVersion
  | InvalidGroup
  | InvalidKey
  deriving DecidableEq, Repr

/-- The state of `QCommandLineParser` after `parser.process(app)` has returned
(main.cpp, line 93): for each of the four options whether it was given and, for
the two options that take one, its value. -/
structure QCommandLineParser where
  importOption : Option String
  loadWindecoPresetOption : Option String
  forceOption : Bool
  generateIcons : Bool
  deriving DecidableEq, Repr

/-- `QCommandLineParser::isSet` for an option that takes a value. -/
def isSet (o : Option String) : Bool := o.isSome

/-- `QCommandLineParser::value`: the value given, the empty string when the
option is not set. -/
def value (o : Option String) : String := o.getD ""

/-- One entry of the effect trace: a call made by `main` or `processComandLine`
on a collaborator, with its arguments and the values it returned, or one line
written to standard output. -/
inductive Event (S : Type)
  | openConfig (file : String)
  | importPreset (fileName : String) (forceVersionMismatch : Bool)
      (result : PresetsErrorFlag) (presetName errorMessage : String)
  | importBundledPresets
  | isPresetPresent (presetName : String) (result : Bool)
  | internalSettingsLoad (settings : S)
  | loadPresetAndSave (settings : S) (presetName : String) (notifyWindowManager : Bool)
  | updateDecorationColorCache
  | kwinReloadConfig
  | systemIconGenerator (settings : S)
  | generate
  | output (line : String)
  | dialogShow
  | appExec (code : Int)
  deriving DecidableEq, Repr

/-- The external collaborators, as functions over the world `W`.
`importPreset` returns the verdict, `presetName`, `errorMessage` and the new
world; `internalSettingsLoad` is `InternalSettings::load` on a fresh object;
`exec` is the code `app.exec()` returns when the dialog is closed. -/
structure Collaborators (W S : Type) where
  importPreset : W → String → Bool → PresetsErrorFlag × String × String × W
  importBundledPresets : W → W
  isPresetPresent : W → String → Bool
  internalSettingsLoad : W → S
  loadPresetAndSave : W → S → String → Bool → W
  updateDecorationColorCache : W → W
  kwinReloadConfig : W → W
  generate : W → S → W
  exec : W → Int

/-- The mutable state of one run of `processComandLine`: the world, the trace
so far and the local variable `commandSet`. -/
structure ProcessState (W S : Type) where
  world : W
  trace : List (Event S)
  commandSet : Bool

/-- What a run leaves behind: the returned result, the world and the trace. -/
structure Outcome (W S : Type) where
  result : CommandLineProcessResult
  world : W
  trace : List (Event S)

/-- A stage of `processComandLine` either executes a `return` statement or
falls through to the next statement. -/
inductive Flow (W S : Type)
  | returned (out : Outcome W S)
  | next (st : ProcessState W S)

/-- `KLocalizedString`'s `i18n` with no translation catalogue loaded: the
message is returned as it is written in the source. -/
def i18n (s : String) : String := s

/-- `configFile` (main.cpp, line 95). -/
def configFile : String := "silver/silverrc"

/-- `presetsConfigFile` (main.cpp, line 96). -/
def presetsConfigFile : String := "silver/windecopresetsrc"

/-- The line of main.cpp, line 107. -/
def invalidGlobalGroupLine (fileName : String) : String :=
  i18n "ERROR: Invalid Silver Preset file to import at \"" ++ fileName ++ i18n "\"."

/-- The line of main.cpp, lines 112-113. -/
def invalidVersionLine (fileName : String) : String :=
  i18n "ERROR: The file to import at \"" ++ fileName ++
    i18n "\" was created for a different version of Silver.\n To force import, use the --force-import-invalid-version option."

/-- The line of main.cpp, line 118. -/
def invalidGroupLine (fileName : String) : String :=
  i18n "ERROR: No preset group found in Silver Preset file at \"" ++ fileName ++ i18n "\"."

/-- The line of main.cpp, lines 123-124. -/
def invalidKeyLine (errorMessage fileName : String) : String :=
  i18n "ERROR: Invalid key \"" ++ errorMessage ++ i18n "\" in Silver Preset file at \"" ++
    fileName ++ i18n "\"."

/-- The line of main.cpp, line 128. -/
def importedLine (presetName : String) : String :=
  i18n "Preset, \"" ++ presetName ++ i18n "\" imported."

/-- The line of main.cpp, line 139. -/
def presetNotFoundLine (presetName : String) : String :=
  i18n "ERROR: Preset, \"" ++ presetName ++ i18n "\" not found."

/-- The line of main.cpp, line 149. -/
def loadedLine (presetName : String) : String :=
  i18n "Preset, \"" ++ presetName ++ i18n "\" loaded..."

/-- The line of main.cpp, line 160. -/
def iconsGeneratedLine : String :=
  i18n "silver and silver-dark system icons generated."

/-- Append one event to the trace. -/
def ProcessState.emit {W S : Type} (st : ProcessState W S) (e : Event S) : ProcessState W S :=
  { st with trace := st.trace ++ [e] }

/-- A statement `output << ... << Qt::endl`: the concatenated pieces are written
to standard output as one line. -/
def ProcessState.write {W S : Type} (st : ProcessState W S) (line : String) :
    ProcessState W S :=
  st.emit (Event.output line)

/-- The statement `return {CommandLineProcessResult::Status::Error}`. -/
def ProcessState.returnError {W S : Type} (st : ProcessState W S) : Flow W S :=
  Flow.returned { result := { statusCode := Status.Error }, world := st.world, trace := st.trace }

/-- The import stage (main.cpp, lines 99-129). -/
def importStage {W S : Type} (c : Collaborators W S) (parser : QCommandLineParser)
    (st : ProcessState W S) : Flow W S :=
  if isSet parser.importOption then
    let st := { st with commandSet := true }
    let st := st.emit (Event.openConfig presetsConfigFile)
    match c.importPreset st.world (value parser.importOption) parser.forceOption with
    | (importErrors, presetName, errorMessage, world) =>
      let st := { st with world := world }
      let st := st.emit (Event.importPreset (value parser.importOption) parser.forceOption
        importErrors presetName errorMessage)
      if importErrors = PresetsErrorFlag.InvalidGlobalGroup then
        (st.write (invalidGlobalGroupLine (value parser.importOption))).returnError
      else if importErrors = PresetsErrorFlag.InvalidVersion then
        (st.write (invalidVersionLine (value parser.importOption))).returnError
      else if importErrors = PresetsErrorFlag.InvalidGroup then
        (st.write (invalidGroupLine (value parser.importOption))).returnError
      else if importErrors = PresetsErrorFlag.InvalidKey then
        (st.write (invalidKeyLine errorMessage (value parser.importOption))).returnError
      else
        Flow.next (st.write (importedLine presetName))
  else
    Flow.next st

/-- The load-preset stage (main.cpp, lines 131-150). -/
def loadStage {W S : Type} (c : Collaborators W S) (parser : QCommandLineParser)
    (st : ProcessState W S) : Flow W S :=
  if isSet parser.loadWindecoPresetOption then
    let st := { st with commandSet := true }
    let st := st.emit (Event.openConfig configFile)
    let st := st.emit (Event.openConfig presetsConfigFile)
    let st := { st with world := c.importBundledPresets st.world }
    let st := st.emit Event.importBundledPresets
    let present := c.isPresetPresent st.world (value parser.loadWindecoPresetOption)
    let st := st.emit (Event.isPresetPresent (value parser.loadWindecoPresetOption) present)
    if !present then
      (st.write (presetNotFoundLine (value parser.loadWindecoPresetOption))).returnError
    else
      let internalSettings := c.internalSettingsLoad st.world
      let st := st.emit (Event.internalSettingsLoad internalSettings)
      let world := c.loadPresetAndSave st.world internalSettings
        (value parser.loadWindecoPresetOption) true
      let st := { st with world := world }
      let st := st.emit (Event.loadPresetAndSave internalSettings
        (value parser.loadWindecoPresetOption) true)
      let st := { st with world := c.updateDecorationColorCache st.world }
      let st := st.emit Event.updateDecorationColorCache
      let st := { st with world := c.kwinReloadConfig st.world }
      let st := st.emit Event.kwinReloadConfig
      Flow.next (st.write (loadedLine (value parser.loadWindecoPresetOption)))
  else
    Flow.next st

/-- The icon stage (main.cpp, lines 152-161); it has no `return` statement. -/
def iconStage {W S : Type} (c : Collaborators W S) (parser : QCommandLineParser)
    (st : ProcessState W S) : ProcessState W S :=
  if parser.generateIcons || isSet parser.loadWindecoPresetOption then
    let st := { st with commandSet := true }
    let internalSettings := c.internalSettingsLoad st.world
    let st := st.emit (Event.internalSettingsLoad internalSettings)
    let st := st.emit (Event.systemIconGenerator internalSettings)
    let st := { st with world := c.generate st.world internalSettings }
    let st := st.emit Event.generate
    st.write iconsGeneratedLine
  else
    st

/-- The function `processComandLine` (main.cpp, lines 70-168), from the point
where `parser.process(app)` has returned; `world` is the world at that
point. -/
def processComandLine {W S : Type} (c : Collaborators W S) (parser : QCommandLineParser)
    (world : W) : Outcome W S :=
  match importStage c parser { world := world, trace := [], commandSet := false } with
  | Flow.returned out => out
  | Flow.next st =>
    match loadStage c parser st with
    | Flow.returned out => out
    | Flow.next st =>
      let st := iconStage c parser st
      if st.commandSet then
        { result := { statusCode := Status.CommandsProcessedOk }, world := st.world,
          trace := st.trace }
      else
        { result := { statusCode := Status.NoCommand }, world := st.world, trace := st.trace }

/-- What `main` leaves behind: its return value and the whole trace. -/
structure MainOutcome (S : Type) where
  exitCode : Int
  trace : List (Event S)

/-- The function `main` (main.cpp, lines 38-68), from the call of
`processComandLine` on. -/
def main {W S : Type} (c : Collaborators W S) (parser : QCommandLineParser) (world : W) :
    MainOutcome S :=
  let commandLineResult := processComandLine c parser world
  if commandLineResult.result.statusCode = Status.Error then
    { exitCode := 1, trace := commandLineResult.trace }
  else if commandLineResult.result.statusCode = Status.CommandsProcessedOk then
    { exitCode := 0, trace := commandLineResult.trace }
  else
    { exitCode := c.exec commandLineResult.world,
      trace := commandLineResult.trace ++
        [Event.dialogShow, Event.appExec (c.exec commandLineResult.world)] }

/-! ## Vocabulary for the properties -/

/-- The persistence call, `PresetsModel::loadPresetAndSave`. -/
def Event.isLoadPresetAndSave {S : Type} : Event S → Bool
  | Event.loadPresetAndSave _ _ _ => true
  | _ => false

/-- The two notifier calls of `DBusMessages`. -/
def Event.isNotifier {S : Type} : Event S → Bool
  | Event.updateDecorationColorCache => true
  | Event.kwinReloadConfig => true
  | _ => false

/-- Construction of the `SystemIconGenerator` or a call of its `generate`. -/
def Event.isIconGenerator {S : Type} : Event S → Bool
  | Event.systemIconGenerator _ => true
  | Event.generate => true
  | _ => false

/-- A line written to standard output. -/
def Event.isOutput {S : Type} : Event S → Bool
  | Event.output _ => true
  | _ => false

/-- A call on a collaborator: every event that is not a line of output. -/
def Event.isCollaboratorCall {S : Type} (e : Event S) : Bool := !e.isOutput

/-- A line is an ERROR message when it starts with `ERROR:`. -/
def isErrorLine (line : String) : Bool := "ERROR:".data.isPrefixOf line.data

/-- An ERROR message written to standard output. -/
def Event.isErrorOutput {S : Type} : Event S → Bool
  | Event.output line => isErrorLine line
  | _ => false

/-- The text `part` occurs in `line`. -/
def Mentions (line part : String) : Prop := ∃ a b : String, line = a ++ part ++ b

/-- The line that the import stage writes after `importPreset` has returned
`importErrors` (main.cpp, lines 106-128). -/
def importLine (importErrors : PresetsErrorFlag) (presetName errorMessage fileName : String) :
    String :=
  match importErrors with
  | PresetsErrorFlag.Ok => importedLine presetName
  | PresetsErrorFlag.InvalidGlobalGroup => invalidGlobalGroupLine fileName
  | PresetsErrorFlag.InvalidVersion => invalidVersionLine fileName
  | PresetsErrorFlag.InvalidGroup => invalidGroupLine fileName
  | PresetsErrorFlag.InvalidKey => invalidKeyLine errorMessage fileName

/-- The events of an import stage in which `importPreset` returned. -/
def importEvents {S : Type} (fileName : String) (force : Bool) (importErrors : PresetsErrorFlag)
    (presetName errorMessage : String) : List (Event S) :=
  [Event.openConfig presetsConfigFile,
   Event.importPreset fileName force importErrors presetName errorMessage,
   Event.output (importLine importErrors presetName errorMessage fileName)]

/-- The events of a load-preset stage that ends at the presence check. -/
def missingEvents {S : Type} (presetName : String) : List (Event S) :=
  [Event.openConfig configFile, Event.openConfig presetsConfigFile, Event.importBundledPresets,
   Event.isPresetPresent presetName false, Event.output (presetNotFoundLine presetName)]

/-- The events of a load-preset stage that finds the preset; `settings` is
what `InternalSettings::load` returned. -/
def loadEvents {S : Type} (presetName : String) (settings : S) : List (Event S) :=
  [Event.openConfig configFile, Event.openConfig presetsConfigFile, Event.importBundledPresets,
   Event.isPresetPresent presetName true, Event.internalSettingsLoad settings,
   Event.loadPresetAndSave settings presetName true, Event.updateDecorationColorCache,
   Event.kwinReloadConfig, Event.output (loadedLine presetName)]

/-- The events of the icon stage; `settings` is what `InternalSettings::load`
returned. -/
def iconEvents {S : Type} (settings : S) : List (Event S) :=
  [Event.internalSettingsLoad settings, Event.systemIconGenerator settings, Event.generate,
   Event.output iconsGeneratedLine]

/-- The world after the calls of a load-preset stage that finds the preset. -/
def worldAfterLoad {W S : Type} (c : Collaborators W S) (world : W) (presetName : String) : W :=
  c.kwinReloadConfig (c.updateDecorationColorCache
    (c.loadPresetAndSave (c.importBundledPresets world)
      (c.internalSettingsLoad (c.importBundledPresets world)) presetName true))

/-- The import stage fell through: it was not requested, or `importPreset`
returned `Ok`; `world` and `events` are the world and the trace after it. -/
def ImportPassed {W S : Type} (c : Collaborators W S) (parser : QCommandLineParser) (w : W)
    (world : W) (events : List (Event S)) : Prop :=
  (parser.importOption = none ∧ world = w ∧ events = []) ∨
  ∃ fileName presetName errorMessage,
    parser.importOption = some fileName ∧
    c.importPreset w fileName parser.forceOption =
      (PresetsErrorFlag.Ok, presetName, errorMessage, world) ∧
    events = importEvents fileName parser.forceOption PresetsErrorFlag.Ok presetName errorMessage

/-- Collaborators with fixed answers, for running the pipeline on concrete
command lines: `importPreset` returns `verdict` with preset name `Test` and
error message `BadKey`, `isPresetPresent` returns `present`; the world counts
the calls that change it and the settings snapshot is that count. -/
def stubCollaborators (verdict : PresetsErrorFlag) (present : Bool) : Collaborators Nat Nat where
  importPreset := fun w _ _ => (verdict, "Test", "BadKey", w + 1)
  importBundledPresets := fun w => w + 1
  isPresetPresent := fun _ _ => present
  internalSettingsLoad := fun w => w
  loadPresetAndSave := fun w _ _ _ => w + 1
  updateDecorationColorCache := fun w => w + 1
  kwinReloadConfig := fun w => w + 1
  generate := fun w _ => w + 1
  exec := fun _ => 0

/-- The failure kinds of section 7 of the specification: the four import
verdicts and the preset that is not found. -/
inductive FailureKind
  | InvalidGlobalGroup
  | InvalidVersion
  | InvalidGroup
  | InvalidKey
  | PresetNotFound
  deriving DecidableEq, Repr

/-- The failure kind of an import verdict; `Ok` is none. -/
def PresetsErrorFlag.failureKind : PresetsErrorFlag → Option FailureKind
  | PresetsErrorFlag.Ok => none
  | PresetsErrorFlag.InvalidGlobalGroup => some FailureKind.InvalidGlobalGroup
  | PresetsErrorFlag.InvalidVersion => some FailureKind.InvalidVersion
  | PresetsErrorFlag.InvalidGroup => some FailureKind.InvalidGroup
  | PresetsErrorFlag.InvalidKey => some FailureKind.InvalidKey

/-- The ERROR line of each failure kind (main.cpp, lines 107, 112, 118, 123 and
139). -/
def errorLine (kind : FailureKind) (fileName errorMessage presetName : String) : String :=
  match kind with
  | FailureKind.InvalidGlobalGroup => invalidGlobalGroupLine fileName
  | FailureKind.InvalidVersion => invalidVersionLine fileName
  | FailureKind.InvalidGroup => invalidGroupLine fileName
  | FailureKind.InvalidKey => invalidKeyLine errorMessage fileName
  | FailureKind.PresetNotFound => presetNotFoundLine presetName

/-- The first sixteen characters of the ERROR line of each failure kind. -/
def errorLineStart : FailureKind → List Char
  | FailureKind.InvalidGlobalGroup => "ERROR: Invalid S".data
  | FailureKind.InvalidVersion => "ERROR: The file ".data
  | FailureKind.InvalidGroup => "ERROR: No preset".data
  | FailureKind.InvalidKey => "ERROR: Invalid k".data
  | FailureKind.PresetNotFound => "ERROR: Preset, \"".data

/-- The command line `-i broken.klpw -w Test -f -g`. -/
def brokenImportCommand : QCommandLineParser :=
  { importOption := some "broken.klpw", loadWindecoPresetOption := some "Test",
    forceOption := true, generateIcons := true }

/-- The command line `-i old.klpw -g`. -/
def importAndIconsCommand : QCommandLineParser :=
  { importOption := some "old.klpw", loadWindecoPresetOption := none,
    forceOption := false, generateIcons := true }

/-- The command line `-w Missing -g`. -/
def loadMissingCommand : QCommandLineParser :=
  { importOption := none, loadWindecoPresetOption := some "Missing",
    forceOption := false, generateIcons := true }

/-- The command line `-i test.klpw -w Test`. -/
def importThenLoadTestCommand : QCommandLineParser :=
  { importOption := some "test.klpw", loadWindecoPresetOption := some "Test",
    forceOption := false, generateIcons := false }

/-- The command line `-i test.klpw -f -w Missing`. -/
def importThenLoadMissingCommand : QCommandLineParser :=
  { importOption := some "test.klpw", loadWindecoPresetOption := some "Missing",
    forceOption := true, generateIcons := false }

/-- The command line `-g`. -/
def iconsOnlyCommand : QCommandLineParser :=
  { importOption := none, loadWindecoPresetOption := none,
    forceOption := false, generateIcons := true }

/-! ## The stages, case by case -/

section Stages

variable {W S : Type} (c : Collaborators W S) (parser : QCommandLineParser)

theorem importStage_none (st : ProcessState W S) (hio : parser.importOption = none) :
    importStage c parser st = Flow.next st := by
  simp [importStage, hio, isSet]

theorem importStage_ok (st : ProcessState W S) {f name err : String} {w1 : W}
    (hio : parser.importOption = some f)
    (hr : c.importPreset st.world f parser.forceOption = (PresetsErrorFlag.Ok, name, err, w1)) :
    importStage c parser st =
      Flow.next { world := w1,
                  trace := st.trace ++ importEvents f parser.forceOption PresetsErrorFlag.Ok name err,
                  commandSet := true } := by
  simp [importStage, hio, isSet, value, ProcessState.emit, ProcessState.write, hr, importEvents,
    importLine]

theorem importStage_fail (st : ProcessState W S) {f name err : String} {w1 : W}
    {flag : PresetsErrorFlag} (hio : parser.importOption = some f)
    (hr : c.importPreset st.world f parser.forceOption = (flag, name, err, w1))
    (hflag : flag ≠ PresetsErrorFlag.Ok) :
    importStage c parser st =
      Flow.returned { result := { statusCode := Status.Error }, world := w1,
                      trace := st.trace ++ importEvents f parser.forceOption flag name err } := by
  cases flag <;>
    simp [importStage, hio, isSet, value, ProcessState.emit, ProcessState.write,
      ProcessState.returnError, hr, importEvents, importLine] at hflag ⊢

theorem loadStage_none (st : ProcessState W S) (hlo : parser.loadWindecoPresetOption = none) :
    loadStage c parser st = Flow.next st := by
  simp [loadStage, hlo, isSet]

theorem loadStage_missing (st : ProcessState W S) {n : String}
    (hlo : parser.loadWindecoPresetOption = some n)
    (hp : c.isPresetPresent (c.importBundledPresets st.world) n = false) :
    loadStage c parser st =
      Flow.returned { result := { statusCode := Status.Error },
                      world := c.importBundledPresets st.world,
                      trace := st.trace ++ missingEvents n } := by
  simp [loadStage, hlo, isSet, value, ProcessState.emit, ProcessState.write,
    ProcessState.returnError, hp, missingEvents]

theorem loadStage_present (st : ProcessState W S) {n : String}
    (hlo : parser.loadWindecoPresetOption = some n)
    (hp : c.isPresetPresent (c.importBundledPresets st.world) n = true) :
    loadStage c parser st =
      Flow.next { world := worldAfterLoad c st.world n,
                  trace := st.trace ++
                    loadEvents n (c.internalSettingsLoad (c.importBundledPresets st.world)),
                  commandSet := true } := by
  simp [loadStage, hlo, isSet, value, ProcessState.emit, ProcessState.write, hp, loadEvents,
    worldAfterLoad]

theorem iconStage_run (st : ProcessState W S)
    (h : parser.generateIcons = true ∨ ∃ n, parser.loadWindecoPresetOption = some n) :
    iconStage c parser st =
      { world := c.generate st.world (c.internalSettingsLoad st.world),
        trace := st.trace ++ iconEvents (c.internalSettingsLoad st.world),
        commandSet := true } := by
  rcases h with h | ⟨n, h⟩ <;>
    simp [iconStage, h, isSet, ProcessState.emit, ProcessState.write, iconEvents]

theorem iconStage_skip (st : ProcessState W S) (hgi : parser.generateIcons = false)
    (hlo : parser.loadWindecoPresetOption = none) :
    iconStage c parser st = st := by
  simp [iconStage, hgi, hlo, isSet]

end Stages

/-! ## The whole run, case by case -/

/-- The import stage from the initial state: it returns `Error`, or it passes. -/
theorem importStage_cases {W S : Type} (c : Collaborators W S) (parser : QCommandLineParser)
    (w : W) :
    (∃ f flag name err w1, parser.importOption = some f ∧
        c.importPreset w f parser.forceOption = (flag, name, err, w1) ∧
        flag ≠ PresetsErrorFlag.Ok ∧
        importStage c parser { world := w, trace := [], commandSet := false } =
          Flow.returned { result := { statusCode := Status.Error }, world := w1,
                          trace := importEvents f parser.forceOption flag name err }) ∨
    (∃ w1 pre, ImportPassed c parser w w1 pre ∧
        importStage c parser { world := w, trace := [], commandSet := false } =
          Flow.next { world := w1, trace := pre, commandSet := parser.importOption.isSome }) := by
  rcases hio : parser.importOption with _ | f
  · right
    exact ⟨w, [], Or.inl ⟨hio, rfl, rfl⟩, by simp [importStage_none c parser _ hio]⟩
  · rcases hr : c.importPreset w f parser.forceOption with ⟨flag, name, err, w1⟩
    by_cases hflag : flag = PresetsErrorFlag.Ok
    · subst hflag
      right
      refine ⟨w1, _, Or.inr ⟨f, name, err, hio, hr, rfl⟩, ?_⟩
      have h := importStage_ok c parser { world := w, trace := [], commandSet := false } hio hr
      simpa using h
    · left
      refine ⟨f, flag, name, err, w1, rfl, hr, hflag, ?_⟩
      have h := importStage_fail c parser { world := w, trace := [], commandSet := false }
        hio hr hflag
      simpa using h

/-- An import stage that passes falls through with the world and the events
that `ImportPassed` names. -/
theorem importStage_passed {W S : Type} (c : Collaborators W S) (parser : QCommandLineParser)
    (w w1 : W) (pre : List (Event S)) (hpass : ImportPassed c parser w w1 pre) :
    importStage c parser { world := w, trace := [], commandSet := false } =
      Flow.next { world := w1, trace := pre, commandSet := parser.importOption.isSome } := by
  rcases hpass with ⟨hio, rfl, rfl⟩ | ⟨f, name, err, hio, hr, rfl⟩
  · simp [importStage_none c parser _ hio, hio]
  · have h := importStage_ok c parser { world := w, trace := [], commandSet := false } hio hr
    simpa [hio] using h

/-- The events of an import stage that passes are no persistence call, no
notifier call and no use of the icon generator. -/
theorem importPassed_quiet {W S : Type} (c : Collaborators W S) (parser : QCommandLineParser)
    (w w1 : W) (pre : List (Event S)) (hpass : ImportPassed c parser w w1 pre) :
    ∀ e ∈ pre, e.isLoadPresetAndSave = false ∧ e.isNotifier = false ∧
      e.isIconGenerator = false := by
  rcases hpass with ⟨hio, rfl, rfl⟩ | ⟨f, name, err, hio, hr, rfl⟩ <;>
    simp [importEvents, Event.isLoadPresetAndSave, Event.isNotifier, Event.isIconGenerator]

/-- Every run of `processComandLine` is of one of five kinds: the import
fails; the requested preset is missing; the preset is loaded and the icons are
generated; only the icons are generated; neither is requested. -/
theorem processComandLine_cases {W S : Type} (c : Collaborators W S)
    (parser : QCommandLineParser) (w : W) :
    (∃ f flag name err w1, parser.importOption = some f ∧
        c.importPreset w f parser.forceOption = (flag, name, err, w1) ∧
        flag ≠ PresetsErrorFlag.Ok ∧
        processComandLine c parser w =
          { result := { statusCode := Status.Error }, world := w1,
            trace := importEvents f parser.forceOption flag name err }) ∨
    (∃ w1 pre, ImportPassed c parser w w1 pre ∧
      ((∃ n, parser.loadWindecoPresetOption = some n ∧
          c.isPresetPresent (c.importBundledPresets w1) n = false ∧
          processComandLine c parser w =
            { result := { statusCode := Status.Error }, world := c.importBundledPresets w1,
              trace := pre ++ missingEvents n }) ∨
       (∃ n, parser.loadWindecoPresetOption = some n ∧
          c.isPresetPresent (c.importBundledPresets w1) n = true ∧
          processComandLine c parser w =
            { result := { statusCode := Status.CommandsProcessedOk },
              world := c.generate (worldAfterLoad c w1 n)
                (c.internalSettingsLoad (worldAfterLoad c w1 n)),
              trace := pre ++
                (loadEvents n (c.internalSettingsLoad (c.importBundledPresets w1)) ++
                  iconEvents (c.internalSettingsLoad (worldAfterLoad c w1 n))) }) ∨
       (parser.loadWindecoPresetOption = none ∧ parser.generateIcons = true ∧
          processComandLine c parser w =
            { result := { statusCode := Status.CommandsProcessedOk },
              world := c.generate w1 (c.internalSettingsLoad w1),
              trace := pre ++ iconEvents (c.internalSettingsLoad w1) }) ∨
       (parser.loadWindecoPresetOption = none ∧ parser.generateIcons = false ∧
          processComandLine c parser w =
            { result := { statusCode :=
                if parser.importOption.isSome then Status.CommandsProcessedOk
                else Status.NoCommand },
              world := w1, trace := pre }))) := by
  rcases importStage_cases c parser w with ⟨f, flag, name, err, w1, hio, hr, hflag, hst⟩ |
    ⟨w1, pre, hpass, hst⟩
  · left
    exact ⟨f, flag, name, err, w1, hio, hr, hflag, by simp [processComandLine, hst]⟩
  · right
    refine ⟨w1, pre, hpass, ?_⟩
    rcases hlo : parser.loadWindecoPresetOption with _ | n
    · right; right
      have hl := fun st => loadStage_none c parser st hlo
      cases hgi : parser.generateIcons
      · right
        refine ⟨rfl, rfl, ?_⟩
        have hi := fun st => iconStage_skip c parser st hgi hlo
        cases hsome : parser.importOption.isSome <;>
          simp [processComandLine, hst, hl, hi, hsome]
      · left
        refine ⟨rfl, rfl, ?_⟩
        have hi := fun st => iconStage_run c parser st (Or.inl hgi)
        simp [processComandLine, hst, hl, hi]
    · have hi := fun st => iconStage_run c parser st (Or.inr ⟨n, hlo⟩)
      cases hp : c.isPresetPresent (c.importBundledPresets w1) n
      · left
        refine ⟨n, rfl, hp, ?_⟩
        have hl := loadStage_missing c parser
          { world := w1, trace := pre, commandSet := parser.importOption.isSome } hlo hp
        simp [processComandLine, hst, hl]
      · right; left
        refine ⟨n, rfl, hp, ?_⟩
        have hl := loadStage_present c parser
          { world := w1, trace := pre, commandSet := parser.importOption.isSome } hlo hp
        simp [processComandLine, hst, hl, hi]

/-- No run of `processComandLine` reaches the dialog: its trace holds neither
`dialogShow` nor `appExec`. -/
theorem processComandLine_no_dialog {W S : Type} (c : Collaborators W S)
    (parser : QCommandLineParser) (w : W) :
    Event.dialogShow ∉ (processComandLine c parser w).trace ∧
    ∀ code, Event.appExec code ∉ (processComandLine c parser w).trace := by
  rcases processComandLine_cases c parser w with
    ⟨f, flag, name, err, w1, hio, hr, hflag, hrun⟩ | ⟨w1, pre, hpass, hrest⟩
  · simp [hrun, importEvents]
  · rcases hpass with ⟨hio, rfl, rfl⟩ | ⟨f, name, err, hio, hr, rfl⟩ <;>
      rcases hrest with ⟨n, hlo, hp, hrun⟩ | ⟨n, hlo, hp, hrun⟩ | ⟨hlo, hgi, hrun⟩ |
        ⟨hlo, hgi, hrun⟩ <;>
      simp [hrun, importEvents, missingEvents, loadEvents, iconEvents]

/-! ## The claims -/

/-- C1. Exit status of `main`: when `processComandLine` returns `Error`, `main`
returns 1, which is not zero; when it returns `CommandsProcessedOk`, `main`
returns 0; and the dialog is shown and `app.exec()` is called exactly when the
status is `NoCommand`. -/
theorem main_exit_status {W S : Type} (c : Collaborators W S) (parser : QCommandLineParser)
    (w : W) :
    ((processComandLine c parser w).result.statusCode = Status.Error →
      (main c parser w).exitCode = 1 ∧ (main c parser w).exitCode ≠ 0) ∧
    ((processComandLine c parser w).result.statusCode = Status.CommandsProcessedOk →
      (main c parser w).exitCode = 0) ∧
    (Event.dialogShow ∈ (main c parser w).trace ↔
      (processComandLine c parser w).result.statusCode = Status.NoCommand) ∧
    ((∃ code, Event.appExec code ∈ (main c parser w).trace) ↔
      (processComandLine c parser w).result.statusCode = Status.NoCommand) := by
  have hd := processComandLine_no_dialog c parser w
  rcases hs : (processComandLine c parser w).result.statusCode <;>
    simp [main, hs, hd.1, hd.2]

/-- C7. `processComandLine` returns `NoCommand` exactly when none of the
intents import-preset, load-windeco-preset and generate-system-icons is requested,
whatever the force flag is; `NoCommand` differs from `Error` and from
`CommandsProcessedOk`; and a run that returns `NoCommand` has an empty trace (no
collaborator is called, nothing is written) and leaves the world as it was. -/
theorem no_command_state {W S : Type} (c : Collaborators W S) (parser : QCommandLineParser)
    (w : W) :
    ((processComandLine c parser w).result.statusCode = Status.NoCommand ↔
      parser.importOption = none ∧ parser.loadWindecoPresetOption = none ∧
        parser.generateIcons = false) ∧
    Status.NoCommand ≠ Status.Error ∧ Status.NoCommand ≠ Status.CommandsProcessedOk ∧
    ((processComandLine c parser w).result.statusCode = Status.NoCommand →
      (processComandLine c parser w).trace = [] ∧ (processComandLine c parser w).world = w) := by
  refine ⟨?_, by decide, by decide, ?_⟩ <;>
    rcases processComandLine_cases c parser w with
      ⟨f, flag, name, err, w1, hio, hr, hflag, hrun⟩ | ⟨w1, pre, hpass, hrest⟩
  · simp [hrun, hio]
  · rcases hpass with ⟨hio, rfl, rfl⟩ | ⟨f, name, err, hio, hr, rfl⟩ <;>
      rcases hrest with ⟨n, hlo, hp, hrun⟩ | ⟨n, hlo, hp, hrun⟩ | ⟨hlo, hgi, hrun⟩ |
        ⟨hlo, hgi, hrun⟩ <;>
      first
        | simp [hrun, hio, hlo, hgi]
        | simp [hrun, hio, hlo]
  · simp [hrun]
  · rcases hpass with ⟨hio, rfl, rfl⟩ | ⟨f, name, err, hio, hr, rfl⟩ <;>
      rcases hrest with ⟨n, hlo, hp, hrun⟩ | ⟨n, hlo, hp, hrun⟩ | ⟨hlo, hgi, hrun⟩ |
        ⟨hlo, hgi, hrun⟩ <;>
      simp [hrun, hio]

/-- C2. Import failure is terminal: when import is requested and `importPreset`
returns one of the four failure verdicts, `processComandLine` returns `Error`,
its trace is the opening of the catalogue store, the `importPreset` call and
one line of output, so that no collaborator is called after `importPreset`,
and the world is left as `importPreset` left it; the other flags play no
part. -/
theorem import_failure_is_terminal {W S : Type} (c : Collaborators W S)
    (parser : QCommandLineParser) (w : W) (fileName presetName errorMessage : String)
    (flag : PresetsErrorFlag) (w1 : W)
    (himport : parser.importOption = some fileName)
    (hret : c.importPreset w fileName parser.forceOption =
      (flag, presetName, errorMessage, w1))
    (hflag : flag = PresetsErrorFlag.InvalidGlobalGroup ∨ flag = PresetsErrorFlag.InvalidVersion ∨
      flag = PresetsErrorFlag.InvalidGroup ∨ flag = PresetsErrorFlag.InvalidKey) :
    (processComandLine c parser w).result.statusCode = Status.Error ∧
    (∃ line, (processComandLine c parser w).trace =
      [Event.openConfig presetsConfigFile,
       Event.importPreset fileName parser.forceOption flag presetName errorMessage,
       Event.output line]) ∧
    (∀ pre post, (processComandLine c parser w).trace =
        pre ++ Event.importPreset fileName parser.forceOption flag presetName errorMessage :: post →
      ∀ e ∈ post, e.isCollaboratorCall = false) ∧
    (processComandLine c parser w).world = w1 := by
  have hne : flag ≠ PresetsErrorFlag.Ok := by
    rcases hflag with h | h | h | h <;> simp [h]
  have hrun : processComandLine c parser w =
      { result := { statusCode := Status.Error }, world := w1,
        trace := importEvents fileName parser.forceOption flag presetName errorMessage } := by
    have h := importStage_fail c parser { world := w, trace := [], commandSet := false }
      himport hret hne
    simp at h
    simp [processComandLine, h]
  refine ⟨by simp [hrun], ⟨_, by simp [hrun, importEvents]; rfl⟩, ?_, by simp [hrun]⟩
  intro pre post h e he
  simp only [hrun, importEvents] at h
  rcases pre with _ | ⟨x, _ | ⟨y, _ | ⟨z, pre⟩⟩⟩ <;> simp at h
  obtain ⟨-, rfl⟩ := h
  simp at he
  subst he
  rfl

/-- Witness of C2: `-i broken.klpw -w Test -f -g` where `importPreset` returns
`InvalidKey`. -/
theorem import_failure_is_terminal_witness :
    brokenImportCommand.importOption = some "broken.klpw" ∧
    (processComandLine (stubCollaborators PresetsErrorFlag.InvalidKey true)
      brokenImportCommand 0).result.statusCode = Status.Error ∧
    (processComandLine (stubCollaborators PresetsErrorFlag.InvalidKey true)
      brokenImportCommand 0).world = 1 :=
  have h := import_failure_is_terminal (stubCollaborators PresetsErrorFlag.InvalidKey true)
    brokenImportCommand 0 "broken.klpw" "Test" "BadKey" PresetsErrorFlag.InvalidKey 1 rfl rfl
    (by decide)
  ⟨rfl, h.1, h.2.2.2⟩

/-- C3. Missing preset: when load-preset is requested with a name, the stage
of import has passed (import was not requested, or `importPreset` returned
`Ok`), and `isPresetPresent` returns false for that name in the world that
`importBundledPresets` has left, then `processComandLine` returns `Error`; its
trace is the events of the import stage followed by the opening of both
stores, `importBundledPresets`, the `isPresetPresent` call and the not-found
line; and the trace holds no `loadPresetAndSave` call, no notifier call and no
use of the icon generator, whether or not generate-icons was requested. -/
theorem missing_preset_is_error {W S : Type} (c : Collaborators W S)
    (parser : QCommandLineParser) (w w1 : W) (pre : List (Event S)) (presetName : String)
    (hload : parser.loadWindecoPresetOption = some presetName)
    (hpass : ImportPassed c parser w w1 pre)
    (habsent : c.isPresetPresent (c.importBundledPresets w1) presetName = false) :
    (processComandLine c parser w).result.statusCode = Status.Error ∧
    (processComandLine c parser w).trace = pre ++
      [Event.openConfig configFile, Event.openConfig presetsConfigFile,
       Event.importBundledPresets, Event.isPresetPresent presetName false,
       Event.output (presetNotFoundLine presetName)] ∧
    ∀ e ∈ (processComandLine c parser w).trace,
      e.isLoadPresetAndSave = false ∧ e.isNotifier = false ∧ e.isIconGenerator = false := by
  have h1 := importStage_passed c parser w w1 pre hpass
  have h2 := loadStage_missing c parser
    { world := w1, trace := pre, commandSet := parser.importOption.isSome } hload habsent
  have hq := importPassed_quiet c parser w w1 pre hpass
  have hrun : processComandLine c parser w =
      { result := { statusCode := Status.Error }, world := c.importBundledPresets w1,
        trace := pre ++ missingEvents presetName } := by
    simp [processComandLine, h1, h2]
  refine ⟨by simp [hrun], by simp [hrun, missingEvents], ?_⟩
  intro e he
  simp only [hrun, List.mem_append] at he
  rcases he with he | he
  · exact hq e he
  · simp [missingEvents] at he
    rcases he with rfl | rfl | rfl | rfl | rfl <;>
      simp [Event.isLoadPresetAndSave, Event.isNotifier, Event.isIconGenerator]

/-- Witness of C3: `-w Missing -g` where `isPresetPresent` returns false. -/
theorem missing_preset_is_error_witness :
    loadMissingCommand.loadWindecoPresetOption = some "Missing" ∧
    loadMissingCommand.generateIcons = true ∧
    (stubCollaborators PresetsErrorFlag.Ok false).isPresetPresent
      ((stubCollaborators PresetsErrorFlag.Ok false).importBundledPresets 0) "Missing" = false ∧
    (processComandLine (stubCollaborators PresetsErrorFlag.Ok false)
      loadMissingCommand 0).result.statusCode = Status.Error :=
  ⟨rfl, rfl, rfl, (missing_preset_is_error (stubCollaborators PresetsErrorFlag.Ok false)
    loadMissingCommand 0 0 [] "Missing" rfl (Or.inl ⟨rfl, rfl, rfl⟩) rfl).1⟩

/-- C4. Successful load-preset: when load-preset is requested with a name,
the import stage has passed (import was not requested, or `importPreset`
returned `Ok`), and `isPresetPresent` returns true for that name in the world that
`importBundledPresets` has left, then `processComandLine` returns
`CommandsProcessedOk`; its trace is the events of the import stage followed by
the opening of both stores, `importBundledPresets`, the `isPresetPresent`
call, `InternalSettings::load`, `loadPresetAndSave` with that name,
`updateDecorationColorCache`, `kwinReloadConfig`, the loaded line,
`InternalSettings::load`, the construction of the icon generator, `generate`
and the last line; so the persistence, notifier and icon generator events of
the trace are one `loadPresetAndSave` with that name, the two notifier calls in
that order, one construction of the generator and one `generate`. -/
theorem successful_load_preset {W S : Type} (c : Collaborators W S)
    (parser : QCommandLineParser) (w w1 : W) (pre : List (Event S)) (presetName : String)
    (hload : parser.loadWindecoPresetOption = some presetName)
    (hpass : ImportPassed c parser w w1 pre)
    (hpresent : c.isPresetPresent (c.importBundledPresets w1) presetName = true) :
    (processComandLine c parser w).result.statusCode = Status.CommandsProcessedOk ∧
    (processComandLine c parser w).trace = pre ++
      [Event.openConfig configFile, Event.openConfig presetsConfigFile,
       Event.importBundledPresets, Event.isPresetPresent presetName true,
       Event.internalSettingsLoad (c.internalSettingsLoad (c.importBundledPresets w1)),
       Event.loadPresetAndSave (c.internalSettingsLoad (c.importBundledPresets w1))
         presetName true,
       Event.updateDecorationColorCache, Event.kwinReloadConfig,
       Event.output (loadedLine presetName),
       Event.internalSettingsLoad (c.internalSettingsLoad (worldAfterLoad c w1 presetName)),
       Event.systemIconGenerator (c.internalSettingsLoad (worldAfterLoad c w1 presetName)),
       Event.generate, Event.output iconsGeneratedLine] ∧
    (processComandLine c parser w).trace.filter
        (fun e => e.isLoadPresetAndSave || e.isNotifier || e.isIconGenerator) =
      [Event.loadPresetAndSave (c.internalSettingsLoad (c.importBundledPresets w1))
         presetName true,
       Event.updateDecorationColorCache, Event.kwinReloadConfig,
       Event.systemIconGenerator (c.internalSettingsLoad (worldAfterLoad c w1 presetName)),
       Event.generate] := by
  have h1 := importStage_passed c parser w w1 pre hpass
  have h2 := loadStage_present c parser
    { world := w1, trace := pre, commandSet := parser.importOption.isSome } hload hpresent
  have h3 := fun st => iconStage_run c parser st (Or.inr ⟨presetName, hload⟩)
  have hq := importPassed_quiet c parser w w1 pre hpass
  have hrun : processComandLine c parser w =
      { result := { statusCode := Status.CommandsProcessedOk },
        world := c.generate (worldAfterLoad c w1 presetName)
          (c.internalSettingsLoad (worldAfterLoad c w1 presetName)),
        trace := pre ++
          (loadEvents presetName (c.internalSettingsLoad (c.importBundledPresets w1)) ++
            iconEvents (c.internalSettingsLoad (worldAfterLoad c w1 presetName))) } := by
    simp [processComandLine, h1, h2, h3]
  have hpre : pre.filter
      (fun e => e.isLoadPresetAndSave || e.isNotifier || e.isIconGenerator) = [] := by
    rw [List.filter_eq_nil_iff]
    intro e he
    obtain ⟨ha, hb, hc⟩ := hq e he
    simp [ha, hb, hc]
  refine ⟨by simp [hrun], by simp [hrun, loadEvents, iconEvents], ?_⟩
  rw [hrun]
  simp only [List.filter_append, hpre, List.nil_append]
  simp [loadEvents, iconEvents, List.filter, Event.isLoadPresetAndSave, Event.isNotifier,
    Event.isIconGenerator]

/-- Witness of C4: `-i test.klpw -w Test` where `importPreset` returns `Ok` and
`isPresetPresent` returns true. -/
theorem successful_load_preset_witness :
    importThenLoadTestCommand.loadWindecoPresetOption = some "Test" ∧
    (stubCollaborators PresetsErrorFlag.Ok true).isPresetPresent
      ((stubCollaborators PresetsErrorFlag.Ok true).importBundledPresets 1) "Test" = true ∧
    (processComandLine (stubCollaborators PresetsErrorFlag.Ok true)
      importThenLoadTestCommand 0).result.statusCode = Status.CommandsProcessedOk ∧
    (processComandLine (stubCollaborators PresetsErrorFlag.Ok true)
      importThenLoadTestCommand 0).trace.filter
        (fun e => e.isLoadPresetAndSave || e.isNotifier || e.isIconGenerator) =
      [Event.loadPresetAndSave 2 "Test" true, Event.updateDecorationColorCache,
       Event.kwinReloadConfig, Event.systemIconGenerator 5, Event.generate] :=
  have h := successful_load_preset (stubCollaborators PresetsErrorFlag.Ok true)
    importThenLoadTestCommand 0 1
    (importEvents "test.klpw" false PresetsErrorFlag.Ok "Test" "BadKey") "Test" rfl
    (Or.inr ⟨"test.klpw", "Test", "BadKey", rfl, rfl, rfl⟩) rfl
  ⟨rfl, rfl, h.1, h.2.2⟩

/-- C5, as stated, fails: on `-i old.klpw -g`, where `importPreset` returns
`InvalidVersion`, import and generate-icons are requested, load-preset is not,
and the trace holds no use of the icon generator. -/
theorem import_failure_keeps_icons_counterexample :
    importAndIconsCommand.importOption = some "old.klpw" ∧
    importAndIconsCommand.generateIcons = true ∧
    importAndIconsCommand.loadWindecoPresetOption = none ∧
    (stubCollaborators PresetsErrorFlag.InvalidVersion true).importPreset 0 "old.klpw"
      importAndIconsCommand.forceOption = (PresetsErrorFlag.InvalidVersion, "Test", "BadKey", 1) ∧
    ¬ ∃ e ∈ (processComandLine (stubCollaborators PresetsErrorFlag.InvalidVersion true)
      importAndIconsCommand 0).trace, e.isIconGenerator = true := by
  decide

/-- C5, amended. Import failure aborts generate-icons as well: when import and
generate-icons are requested, load-preset is not, and `importPreset` returns a
verdict other than `Ok`, `processComandLine` returns `Error` and the icon
generator is neither constructed nor run. -/
theorem import_failure_aborts_generate_icons {W S : Type} (c : Collaborators W S)
    (parser : QCommandLineParser) (w : W) (fileName presetName errorMessage : String)
    (flag : PresetsErrorFlag) (w1 : W)
    (himport : parser.importOption = some fileName)
    (_hicons : parser.generateIcons = true)
    (_hload : parser.loadWindecoPresetOption = none)
    (hret : c.importPreset w fileName parser.forceOption =
      (flag, presetName, errorMessage, w1))
    (hflag : flag ≠ PresetsErrorFlag.Ok) :
    (processComandLine c parser w).result.statusCode = Status.Error ∧
    ∀ e ∈ (processComandLine c parser w).trace, e.isIconGenerator = false := by
  have h := importStage_fail c parser { world := w, trace := [], commandSet := false }
    himport hret hflag
  simp at h
  simp [processComandLine, h, importEvents, Event.isIconGenerator]

/-- Witness of C5, amended: `-i old.klpw -g` where `importPreset` returns
`InvalidVersion`. -/
theorem import_failure_aborts_generate_icons_witness :
    importAndIconsCommand.importOption = some "old.klpw" ∧
    importAndIconsCommand.generateIcons = true ∧
    importAndIconsCommand.loadWindecoPresetOption = none ∧
    (processComandLine (stubCollaborators PresetsErrorFlag.InvalidVersion true)
      importAndIconsCommand 0).result.statusCode = Status.Error :=
  ⟨rfl, rfl, rfl, (import_failure_aborts_generate_icons
    (stubCollaborators PresetsErrorFlag.InvalidVersion true) importAndIconsCommand 0
    "old.klpw" "Test" "BadKey" PresetsErrorFlag.InvalidVersion 1 rfl rfl rfl rfl (by decide)).1⟩

/-- C10. Import is not rolled back by a later failure: when import and
load-preset are both requested, `importPreset` returns `Ok` and the requested
name is then absent, the trace is exactly: the catalogue store is opened,
`importPreset` is called once with the force flag of the command line, the
imported line is written, both stores are opened, `importBundledPresets` is
called, `isPresetPresent` returns false, the not-found line is written; the
world is the one `importPreset` and `importBundledPresets` left; and the
result is `Error`. -/
theorem import_not_rolled_back {W S : Type} (c : Collaborators W S)
    (parser : QCommandLineParser) (w : W) (fileName presetName errorMessage loadName : String)
    (w1 : W)
    (himport : parser.importOption = some fileName)
    (hload : parser.loadWindecoPresetOption = some loadName)
    (hret : c.importPreset w fileName parser.forceOption =
      (PresetsErrorFlag.Ok, presetName, errorMessage, w1))
    (habsent : c.isPresetPresent (c.importBundledPresets w1) loadName = false) :
    (processComandLine c parser w).result.statusCode = Status.Error ∧
    (processComandLine c parser w).trace =
      [Event.openConfig presetsConfigFile,
       Event.importPreset fileName parser.forceOption PresetsErrorFlag.Ok presetName errorMessage,
       Event.output (importedLine presetName),
       Event.openConfig configFile, Event.openConfig presetsConfigFile,
       Event.importBundledPresets, Event.isPresetPresent loadName false,
       Event.output (presetNotFoundLine loadName)] ∧
    (processComandLine c parser w).world = c.importBundledPresets w1 := by
  have h1 := importStage_ok c parser { world := w, trace := [], commandSet := false }
    himport hret
  have h2 := fun tr b => loadStage_missing c parser
    { world := w1, trace := tr, commandSet := b } hload habsent
  simp at h1
  simp [processComandLine, h1, h2, importEvents, missingEvents, importLine]

/-- Witness of C10: `-i test.klpw -f -w Missing` where `importPreset` returns
`Ok` and `isPresetPresent` returns false. -/
theorem import_not_rolled_back_witness :
    importThenLoadMissingCommand.importOption = some "test.klpw" ∧
    importThenLoadMissingCommand.loadWindecoPresetOption = some "Missing" ∧
    (processComandLine (stubCollaborators PresetsErrorFlag.Ok false)
      importThenLoadMissingCommand 0).result.statusCode = Status.Error ∧
    (processComandLine (stubCollaborators PresetsErrorFlag.Ok false)
      importThenLoadMissingCommand 0).world = 2 :=
  have h := import_not_rolled_back (stubCollaborators PresetsErrorFlag.Ok false)
    importThenLoadMissingCommand 0 "test.klpw" "Test" "BadKey" "Missing" 1 rfl rfl rfl rfl
  ⟨rfl, rfl, h.1, h.2.2⟩

/-- C6. Sequencing of load-preset, in every run: no notifier call and no use of
the icon generator comes before a `loadPresetAndSave` call; no use of the icon
generator comes before a notifier call; from a `loadPresetAndSave` call on, the
trace is exactly that call, `updateDecorationColorCache`, `kwinReloadConfig`,
the loaded line, `InternalSettings::load`, the construction of the icon
generator from the settings just loaded, `generate` and the last line, where
those settings are the ones `load` returns in the world that
`loadPresetAndSave` and the two notifier calls have left; and whenever the icon
generator is constructed, its settings were loaded by the call just before, at
the end of the trace. -/
theorem load_preset_sequencing {W S : Type} (c : Collaborators W S)
    (parser : QCommandLineParser) (w : W) :
    (processComandLine c parser w).trace.Pairwise
      (fun a b => b.isLoadPresetAndSave = true → a.isNotifier = false ∧ a.isIconGenerator = false) ∧
    (processComandLine c parser w).trace.Pairwise
      (fun a b => b.isNotifier = true → a.isIconGenerator = false) ∧
    (∀ s0 n b, Event.loadPresetAndSave s0 n b ∈ (processComandLine c parser w).trace →
      ∃ pre s1 w2, (processComandLine c parser w).trace = pre ++
          [Event.loadPresetAndSave s0 n b, Event.updateDecorationColorCache,
           Event.kwinReloadConfig, Event.output (loadedLine n), Event.internalSettingsLoad s1,
           Event.systemIconGenerator s1, Event.generate, Event.output iconsGeneratedLine] ∧
        s1 = c.internalSettingsLoad (c.kwinReloadConfig (c.updateDecorationColorCache
          (c.loadPresetAndSave w2 s0 n b)))) ∧
    (∀ s, Event.systemIconGenerator s ∈ (processComandLine c parser w).trace →
      ∃ pre, (processComandLine c parser w).trace = pre ++
        [Event.internalSettingsLoad s, Event.systemIconGenerator s, Event.generate,
         Event.output iconsGeneratedLine]) := by
  rcases processComandLine_cases c parser w with
    ⟨f, flag, name, err, w1, hio, hr, hflag, hrun⟩ | ⟨w1, pre, hpass, hrest⟩
  · simp [hrun, importEvents, Event.isLoadPresetAndSave, Event.isNotifier,
      Event.isIconGenerator]
  · have hpre : ∀ e ∈ pre, (∀ s n b, e ≠ Event.loadPresetAndSave s n b) ∧
        ∀ s, e ≠ Event.systemIconGenerator s := by
      rcases hpass with ⟨hio, rfl, rfl⟩ | ⟨f, name, err, hio, hr, rfl⟩ <;> simp [importEvents]
    refine ⟨?_, ?_, ?_, ?_⟩
    · rcases hpass with ⟨hio, rfl, rfl⟩ | ⟨f, name, err, hio, hr, rfl⟩ <;>
        rcases hrest with ⟨n, hlo, hp, hrun⟩ | ⟨n, hlo, hp, hrun⟩ | ⟨hlo, hgi, hrun⟩ |
          ⟨hlo, hgi, hrun⟩ <;>
        simp [hrun, importEvents, missingEvents, loadEvents, iconEvents,
          Event.isLoadPresetAndSave, Event.isNotifier, Event.isIconGenerator]
    · rcases hpass with ⟨hio, rfl, rfl⟩ | ⟨f, name, err, hio, hr, rfl⟩ <;>
        rcases hrest with ⟨n, hlo, hp, hrun⟩ | ⟨n, hlo, hp, hrun⟩ | ⟨hlo, hgi, hrun⟩ |
          ⟨hlo, hgi, hrun⟩ <;>
        simp [hrun, importEvents, missingEvents, loadEvents, iconEvents,
          Event.isLoadPresetAndSave, Event.isNotifier, Event.isIconGenerator]
    · intro s0 n0 b hmem
      rcases hrest with ⟨n, hlo, hp, hrun⟩ | ⟨n, hlo, hp, hrun⟩ | ⟨hlo, hgi, hrun⟩ |
        ⟨hlo, hgi, hrun⟩ <;>
        simp only [hrun, List.mem_append] at hmem
      · rcases hmem with hmem | hmem
        · exact absurd rfl ((hpre _ hmem).1 s0 n0 b)
        · simp [missingEvents] at hmem
      · rcases hmem with hmem | hmem | hmem
        · exact absurd rfl ((hpre _ hmem).1 s0 n0 b)
        · simp [loadEvents] at hmem
          obtain ⟨rfl, rfl, rfl⟩ := hmem
          refine ⟨pre ++ [Event.openConfig configFile, Event.openConfig presetsConfigFile,
            Event.importBundledPresets, Event.isPresetPresent n0 true,
            Event.internalSettingsLoad (c.internalSettingsLoad (c.importBundledPresets w1))],
            _, c.importBundledPresets w1, ?_, rfl⟩
          simp [hrun, loadEvents, iconEvents, worldAfterLoad]
        · simp [iconEvents] at hmem
      · rcases hmem with hmem | hmem
        · exact absurd rfl ((hpre _ hmem).1 s0 n0 b)
        · simp [iconEvents] at hmem
      · exact absurd rfl ((hpre _ hmem).1 s0 n0 b)
    · intro s hmem
      rcases hrest with ⟨n, hlo, hp, hrun⟩ | ⟨n, hlo, hp, hrun⟩ | ⟨hlo, hgi, hrun⟩ |
        ⟨hlo, hgi, hrun⟩ <;>
        simp only [hrun, List.mem_append] at hmem
      · rcases hmem with hmem | hmem
        · exact absurd rfl ((hpre _ hmem).2 s)
        · simp [missingEvents] at hmem
      · rcases hmem with hmem | hmem | hmem
        · exact absurd rfl ((hpre _ hmem).2 s)
        · simp [loadEvents] at hmem
        · simp [iconEvents] at hmem
          subst hmem
          exact ⟨pre ++ loadEvents n (c.internalSettingsLoad (c.importBundledPresets w1)),
            by simp [hrun, iconEvents]⟩
      · rcases hmem with hmem | hmem
        · exact absurd rfl ((hpre _ hmem).2 s)
        · simp [iconEvents] at hmem
          subst hmem
          exact ⟨pre, by simp [hrun, iconEvents]⟩
      · exact absurd rfl ((hpre _ hmem).2 s)

/-- C8. Icon generation trigger: in every run that does not end in `Error`, if
generate-icons or load-preset is requested the icon generator is constructed
once and run once (also when both are requested), and otherwise it is not used
at all; and when generate-icons is the only request, the trace is
`InternalSettings::load`, the construction of the generator, `generate` and the
last line, so that no other collaborator is called, and the world is changed
by `generate` alone. -/
theorem icon_generation_trigger {W S : Type} (c : Collaborators W S)
    (parser : QCommandLineParser) (w : W)
    (hok : (processComandLine c parser w).result.statusCode ≠ Status.Error) :
    ((parser.generateIcons = true ∨ parser.loadWindecoPresetOption.isSome = true) →
      ∃ s, (processComandLine c parser w).trace.filter Event.isIconGenerator =
        [Event.systemIconGenerator s, Event.generate]) ∧
    ((parser.generateIcons = false ∧ parser.loadWindecoPresetOption = none) →
      (processComandLine c parser w).trace.filter Event.isIconGenerator = []) ∧
    ((parser.importOption = none ∧ parser.loadWindecoPresetOption = none ∧
        parser.generateIcons = true) →
      (processComandLine c parser w).trace =
        [Event.internalSettingsLoad (c.internalSettingsLoad w),
         Event.systemIconGenerator (c.internalSettingsLoad w), Event.generate,
         Event.output iconsGeneratedLine] ∧
      (processComandLine c parser w).world = c.generate w (c.internalSettingsLoad w)) := by
  rcases processComandLine_cases c parser w with
    ⟨f, flag, name, err, w1, hio, hr, hflag, hrun⟩ | ⟨w1, pre, hpass, hrest⟩
  · simp [hrun] at hok
  · rcases hpass with ⟨hio, rfl, rfl⟩ | ⟨f, name, err, hio, hr, rfl⟩ <;>
      rcases hrest with ⟨n, hlo, hp, hrun⟩ | ⟨n, hlo, hp, hrun⟩ | ⟨hlo, hgi, hrun⟩ |
        ⟨hlo, hgi, hrun⟩ <;>
      first
        | (exfalso; simp [hrun] at hok; done)
        | simp [hrun, hio, hlo, hgi, importEvents, loadEvents, iconEvents,
            Event.isIconGenerator, List.filter]
        | simp [hrun, hio, hlo, importEvents, loadEvents, iconEvents,
            Event.isIconGenerator, List.filter]

/-- Witness of C8: `-g` alone. -/
theorem icon_generation_trigger_witness :
    (processComandLine (stubCollaborators PresetsErrorFlag.Ok true)
      iconsOnlyCommand 0).result.statusCode ≠ Status.Error ∧
    (processComandLine (stubCollaborators PresetsErrorFlag.Ok true) iconsOnlyCommand 0).trace =
      [Event.internalSettingsLoad 0, Event.systemIconGenerator 0, Event.generate,
       Event.output iconsGeneratedLine] :=
  ⟨by decide, ((icon_generation_trigger (stubCollaborators PresetsErrorFlag.Ok true)
    iconsOnlyCommand 0 (by decide)).2.2 ⟨rfl, rfl, rfl⟩).1⟩

/-! ## The ERROR lines -/

/-- Every ERROR line starts with sixteen characters that depend on the failure
kind alone. -/
theorem errorLine_start (kind : FailureKind) (fileName errorMessage presetName : String) :
    (errorLine kind fileName errorMessage presetName).data.take 16 = errorLineStart kind := by
  cases kind <;> rfl

/-- The starts of the ERROR lines of two different failure kinds differ. -/
theorem errorLineStart_injective (k1 k2 : FailureKind)
    (h : errorLineStart k1 = errorLineStart k2) : k1 = k2 := by
  revert h
  cases k1 <;> cases k2 <;> decide

/-- Every ERROR line starts with `ERROR:`. -/
theorem isErrorLine_errorLine (kind : FailureKind) (fileName errorMessage presetName : String) :
    isErrorLine (errorLine kind fileName errorMessage presetName) = true := by
  cases kind <;> rfl

/-- The imported line is not an ERROR line. -/
theorem isErrorLine_importedLine (presetName : String) :
    isErrorLine (importedLine presetName) = false := rfl

/-- The line written after an import that failed is the ERROR line of the
verdict's failure kind. -/
theorem importLine_eq_errorLine (flag : PresetsErrorFlag) (kind : FailureKind)
    (h : flag.failureKind = some kind) (presetName errorMessage fileName other : String) :
    importLine flag presetName errorMessage fileName =
      errorLine kind fileName errorMessage other := by
  cases flag <;> simp [PresetsErrorFlag.failureKind] at h <;> subst h <;> rfl

/-- C9. Error reporting: every run that returns `Error` writes exactly one
ERROR line, the line of a failure kind; that kind is `PresetNotFound` only when
`isPresetPresent` returned false for the requested name, and an import kind
only when `importPreset` returned the verdict of that kind together with the
error message shown. The ERROR line of an import kind contains the file name,
that of `InvalidKey` contains the error message too, that of `PresetNotFound`
contains the preset name, and the ERROR lines of two different kinds are
different strings. -/
theorem error_reporting {W S : Type} (c : Collaborators W S) (parser : QCommandLineParser)
    (w : W) (hfail : (processComandLine c parser w).result.statusCode = Status.Error) :
    (∃ kind errorMessage,
      (processComandLine c parser w).trace.filter Event.isErrorOutput =
        [Event.output (errorLine kind (value parser.importOption) errorMessage
          (value parser.loadWindecoPresetOption))] ∧
      (kind = FailureKind.PresetNotFound →
        ∃ presetName, parser.loadWindecoPresetOption = some presetName ∧
          Event.isPresetPresent presetName false ∈ (processComandLine c parser w).trace) ∧
      (kind ≠ FailureKind.PresetNotFound →
        ∃ fileName flag presetName, parser.importOption = some fileName ∧
          flag.failureKind = some kind ∧
          Event.importPreset fileName parser.forceOption flag presetName errorMessage ∈
            (processComandLine c parser w).trace)) ∧
    (∀ kind fileName errorMessage presetName, kind ≠ FailureKind.PresetNotFound →
      Mentions (errorLine kind fileName errorMessage presetName) fileName) ∧
    (∀ fileName errorMessage presetName,
      Mentions (errorLine FailureKind.InvalidKey fileName errorMessage presetName) errorMessage) ∧
    (∀ fileName errorMessage presetName,
      Mentions (errorLine FailureKind.PresetNotFound fileName errorMessage presetName)
        presetName) ∧
    (∀ kind1 kind2 fileName errorMessage1 errorMessage2 presetName1 presetName2,
      kind1 ≠ kind2 →
      errorLine kind1 fileName errorMessage1 presetName1 ≠
        errorLine kind2 fileName errorMessage2 presetName2) := by
  refine ⟨?_, ?_, ?_, ?_, ?_⟩
  · rcases processComandLine_cases c parser w with
      ⟨f, flag, name, err, w1, hio, hr, hflag, hrun⟩ | ⟨w1, pre, hpass, hrest⟩
    · obtain ⟨kind, hkind⟩ : ∃ kind, flag.failureKind = some kind := by
        cases flag <;> simp [PresetsErrorFlag.failureKind] at hflag ⊢
      have hne : kind ≠ FailureKind.PresetNotFound := by
        rintro rfl
        cases flag <;> simp [PresetsErrorFlag.failureKind] at hkind
      refine ⟨kind, err, ?_, fun h => absurd h hne, fun _ => ⟨f, flag, name, hio, hkind, ?_⟩⟩
      · have hl := importLine_eq_errorLine flag kind hkind name err f
          (value parser.loadWindecoPresetOption)
        simp [hrun, importEvents, List.filter, Event.isErrorOutput, hl, hio, value,
          isErrorLine_errorLine]
      · simp [hrun, importEvents]
    · rcases hrest with ⟨n, hlo, hp, hrun⟩ | ⟨n, hlo, hp, hrun⟩ | ⟨hlo, hgi, hrun⟩ |
        ⟨hlo, hgi, hrun⟩
      · refine ⟨FailureKind.PresetNotFound, "", ?_, fun _ => ⟨n, hlo, ?_⟩,
          fun h => absurd rfl h⟩
        · have hl : isErrorLine (presetNotFoundLine n) = true := rfl
          rcases hpass with ⟨hio, rfl, rfl⟩ | ⟨f, name, err, hio, hr, rfl⟩ <;>
            simp [hrun, importEvents, missingEvents, List.filter, Event.isErrorOutput, value,
              errorLine, importLine, isErrorLine_importedLine, hl, hlo]
        · simp [hrun, missingEvents]
      · simp [hrun] at hfail
      · simp [hrun] at hfail
      · cases hsome : parser.importOption.isSome <;> simp [hrun, hsome] at hfail
  · intro kind f e n hne
    cases kind
    · exact ⟨_, _, rfl⟩
    · exact ⟨_, _, rfl⟩
    · exact ⟨_, _, rfl⟩
    · exact ⟨_, _, rfl⟩
    · exact absurd rfl hne
  · intro f e n
    exact ⟨i18n "ERROR: Invalid key \"", i18n "\" in Silver Preset file at \"" ++ f ++ i18n "\".",
      by simp [errorLine, invalidKeyLine, String.append_assoc]⟩
  · intro f e n
    exact ⟨_, _, rfl⟩
  · intro k1 k2 f e1 e2 n1 n2 hne h
    apply hne
    apply errorLineStart_injective
    rw [← errorLine_start k1 f e1 n1, ← errorLine_start k2 f e2 n2, h]

/-- Witness of C9: `-i broken.klpw -w Test -f -g` where `importPreset` returns
`InvalidKey` with the error message `BadKey`. -/
theorem error_reporting_witness :
    (processComandLine (stubCollaborators PresetsErrorFlag.InvalidKey true)
      brokenImportCommand 0).result.statusCode = Status.Error ∧
    ∃ kind errorMessage,
      (processComandLine (stubCollaborators PresetsErrorFlag.InvalidKey true)
        brokenImportCommand 0).trace.filter Event.isErrorOutput =
        [Event.output (errorLine kind "broken.klpw" errorMessage "Test")] :=
  have h := (error_reporting (stubCollaborators PresetsErrorFlag.InvalidKey true)
    brokenImportCommand 0 (by decide)).1
  ⟨by decide, h.elim fun kind h => h.elim fun errorMessage h => ⟨kind, errorMessage, h.1⟩⟩

end Breeze
